import Mathlib

/-!
Shallow embedding of `procrastinate/retry.py`.

Python floats are modelled by `ℚ` (all values appearing in the claims are
exact); crucially, `ℚ`-exponentiation with a natural exponent satisfies
`(0 : ℚ) ^ 0 = 1`, exactly as Python evaluates `0.0 ** 0` to `1.0`.
Python `Optional` becomes `Option`, and the wall-clock read made by
`get_retry_exception` (`pendulum.now("UTC")`) becomes an explicit `now`
parameter.
-/

namespace Procrastinate

/-- The `RetryStrategy` attr-dataclass: `max_attempts: Optional[int] = None`,
`wait: float = 0.0`, `linear_wait: float = 0.0`, `exponential_wait: float = 0.0`. -/
structure RetryStrategy where
  max_attempts : Option ℤ := none
  wait : ℚ := 0
  linear_wait : ℚ := 0
  exponential_wait : ℚ := 0
deriving DecidableEq, Repr

/-- Python truthiness of an `Optional[int]` value: `None` and `0` are falsy,
every other integer is truthy. -/
def optIntTruthy : Option ℤ → Bool
  | none => false
  | some n => n != 0

/-- Embedding of `RetryStrategy.get_schedule_in`:

    if self.max_attempts and attempts >= self.max_attempts:
        return None
    wait: float = self.wait
    wait += self.linear_wait * attempts
    wait += self.exponential_wait ** attempts
    return wait

The guard is the Python conjunction of the truthiness of `self.max_attempts`
with the comparison `attempts >= self.max_attempts` (only evaluated when the
field is truthy, hence `getD` is sound). `attempts` is a non-negative integer
(`ℕ`), as documented by the method. -/
def RetryStrategy.get_schedule_in (s : RetryStrategy) (attempts : ℕ) : Option ℚ :=
  if optIntTruthy s.max_attempts && decide (s.max_attempts.getD 0 ≤ (attempts : ℤ)) then
    none
  else
    some (s.wait + s.linear_wait * (attempts : ℚ) + s.exponential_wait ^ attempts)

/-- The `exceptions.JobRetry` exception, which carries only the absolute
timestamp `schedule_at` at which the job should run again. Timestamps are
modelled as rational numbers of seconds. -/
structure JobRetry where
  schedule_at : ℚ
deriving DecidableEq, Repr

/-- Embedding of `BaseRetryStrategy.get_retry_exception`:

    schedule_in = self.get_schedule_in(attempts=attempts)
    if schedule_in is None:
        return None
    schedule_at = pendulum.now("UTC").add(seconds=schedule_in)
    return exceptions.JobRetry(schedule_at)

The strategy is abstracted by its `get_schedule_in` method (the only thing the
base class requires of a subclass), and the current UTC time is passed in as
`now`. -/
def get_retry_exception (schedule : ℕ → Option ℚ) (now : ℚ) (attempts : ℕ) :
    Option JobRetry :=
  match schedule attempts with
  | none => none
  | some schedule_in => some ⟨now + schedule_in⟩

/-- The `RetryValue = Union[bool, int, RetryStrategy]` input union of
`get_retry_strategy`, as an explicit sum. -/
inductive RetryValue where
  | bool (b : Bool)
  | int (n : ℤ)
  | strategy (s : RetryStrategy)
deriving DecidableEq, Repr

/-- Python truthiness of a `RetryValue`: `False` and `0` are falsy; `True`,
nonzero integers and any `RetryStrategy` instance (no `__bool__` override)
are truthy. -/
def RetryValue.truthy : RetryValue → Bool
  | .bool b => b
  | .int n => n != 0
  | .strategy _ => true

/-- Embedding of `get_retry_strategy`:

    if not retry:
        return None
    if retry is True:
        return RetryStrategy()
    if isinstance(retry, int):
        return RetryStrategy(max_attempts=retry)
    return retry

A `bool` that reaches past the first guard is `True`; the `int` branch covers
the remaining integers; everything else is a `RetryStrategy` returned as-is. -/
def get_retry_strategy (retry : RetryValue) : Option RetryStrategy :=
  if retry.truthy = false then
    none
  else
    match retry with
    | .bool _ => some {}
    | .int n => some { max_attempts := some n }
    | .strategy s => some s

/-! ## Claims -/

/-- C1 counterexample: a default-constructed `RetryStrategy` does NOT return
`0.0` at `attempts = 0`; it returns `1.0`, because Python evaluates
`0.0 ** 0` to `1.0`. -/
theorem c1_default_zero_attempts_counterexample :
    ({} : RetryStrategy).get_schedule_in 0 = some 1 ∧
    ({} : RetryStrategy).get_schedule_in 0 ≠ some 0 := by
  constructor
  · norm_num [RetryStrategy.get_schedule_in, optIntTruthy]
  · norm_num [RetryStrategy.get_schedule_in, optIntTruthy]

/-- C1 (amended): a default-constructed `RetryStrategy` returns `1.0` at
`attempts = 0` (the `0 ** 0` term contributes `1`, not `0`) and returns
exactly `0.0` for every `attempts ≥ 1`. -/
theorem c1_default_strategy_schedule :
    ({} : RetryStrategy).get_schedule_in 0 = some 1 ∧
    ∀ attempts : ℕ, 1 ≤ attempts →
      ({} : RetryStrategy).get_schedule_in attempts = some 0 := by
  constructor
  · norm_num [RetryStrategy.get_schedule_in, optIntTruthy]
  · intro attempts h
    have hz : (0 : ℚ) ^ attempts = 0 := zero_pow (by omega)
    norm_num [RetryStrategy.get_schedule_in, optIntTruthy, hz]

/-- C1 witness: the amended theorem evaluated at `attempts = 2`. -/
theorem c1_default_strategy_schedule_witness :
    ({} : RetryStrategy).get_schedule_in 2 = some 0 :=
  c1_default_strategy_schedule.2 2 (by decide)

/-- C2: `get_retry_strategy` is total over the union and behaves as specified:
falsy inputs (`False`, `0`) give `none`; `True` gives the default strategy;
a positive integer `n` gives `max_attempts = n` with zero waits; an existing
strategy is returned unchanged. -/
theorem c2_get_retry_strategy_spec :
    get_retry_strategy (.bool false) = none ∧
    get_retry_strategy (.int 0) = none ∧
    get_retry_strategy (.bool true) =
      some { max_attempts := none, wait := 0, linear_wait := 0, exponential_wait := 0 } ∧
    (∀ n : ℤ, 0 < n → get_retry_strategy (.int n) =
      some { max_attempts := some n, wait := 0, linear_wait := 0, exponential_wait := 0 }) ∧
    (∀ s : RetryStrategy, get_retry_strategy (.strategy s) = some s) := by
  refine ⟨rfl, rfl, rfl, ?_, ?_⟩
  · intro n hn
    simp [get_retry_strategy, RetryValue.truthy]
    omega
  · intro s
    rfl

/-- C2 witness: the spec of `get_retry_strategy` evaluated at the positive
integer `5`. -/
theorem c2_get_retry_strategy_spec_witness :
    get_retry_strategy (.int 5) =
      some { max_attempts := some 5, wait := 0, linear_wait := 0, exponential_wait := 0 } :=
  c2_get_retry_strategy_spec.2.2.2.1 5 (by decide)

/-- C3: with `max_attempts` a positive integer `m`, `get_schedule_in` returns
`none` for every `attempts ≥ m` and some delay for every `attempts < m`. -/
theorem c3_max_attempts_bounds (s : RetryStrategy) (m : ℤ)
    (hma : s.max_attempts = some m) (hm : 0 < m) (attempts : ℕ) :
    (m ≤ (attempts : ℤ) → s.get_schedule_in attempts = none) ∧
    ((attempts : ℤ) < m → ∃ d : ℚ, s.get_schedule_in attempts = some d) := by
  constructor
  · intro h
    simp [RetryStrategy.get_schedule_in, hma, optIntTruthy]
    omega
  · intro h
    refine ⟨s.wait + s.linear_wait * (attempts : ℚ) + s.exponential_wait ^ attempts, ?_⟩
    simp [RetryStrategy.get_schedule_in, hma, optIntTruthy]
    omega

/-- C3 witness: for `max_attempts = 3`, `attempts = 3` is refused and
`attempts = 2` is scheduled. -/
theorem c3_max_attempts_bounds_witness :
    ({ max_attempts := some 3 } : RetryStrategy).get_schedule_in 3 = none ∧
    ∃ d : ℚ, ({ max_attempts := some 3 } : RetryStrategy).get_schedule_in 2 = some d :=
  ⟨(c3_max_attempts_bounds { max_attempts := some 3 } 3 rfl (by decide) 3).1 (by decide),
   (c3_max_attempts_bounds { max_attempts := some 3 } 3 rfl (by decide) 2).2 (by decide)⟩

/-- C4: whenever the `max_attempts` limit does not stop the retry (the field
is `None`, or `0`, or greater than `attempts`), `get_schedule_in` returns
exactly `wait + linear_wait * attempts + exponential_wait ^ attempts`. -/
theorem c4_schedule_formula (s : RetryStrategy) (attempts : ℕ)
    (h : ∀ m : ℤ, s.max_attempts = some m → m ≠ 0 → (attempts : ℤ) < m) :
    s.get_schedule_in attempts =
      some (s.wait + s.linear_wait * (attempts : ℚ) + s.exponential_wait ^ attempts) := by
  rcases hma : s.max_attempts with _ | m
  · simp [RetryStrategy.get_schedule_in, hma, optIntTruthy]
  · have := h m hma
    simp [RetryStrategy.get_schedule_in, hma, optIntTruthy]
    intro hm
    have := this (by exact_mod_cast fun e => hm (by exact_mod_cast e))
    omega

/-- C4 witness: the additive formula evaluated at a concrete strategy
(`wait = 1`, `linear_wait = 2`, `exponential_wait = 3`) and `attempts = 2`:
`1 + 2 * 2 + 3 ^ 2 = 14`. -/
theorem c4_schedule_formula_witness :
    ({ wait := 1, linear_wait := 2, exponential_wait := 3 } :
      RetryStrategy).get_schedule_in 2 = some 14 := by
  have h := c4_schedule_formula
    { wait := 1, linear_wait := 2, exponential_wait := 3 } 2
    (by intro m hm; simp at hm)
  rw [h]
  norm_num

/-- C5 counterexample: `RetryStrategy(wait=3)` does NOT return `3.0` at
`attempts = 0`; it returns `4.0`, because the `0.0 ** 0` exponential term
contributes `1.0`. -/
theorem c5_wait3_at_zero_counterexample :
    ({ wait := 3 } : RetryStrategy).get_schedule_in 0 = some 4 ∧
    ({ wait := 3 } : RetryStrategy).get_schedule_in 0 ≠ some 3 := by
  constructor
  · norm_num [RetryStrategy.get_schedule_in, optIntTruthy]
  · norm_num [RetryStrategy.get_schedule_in, optIntTruthy]

/-- C5 (amended): `RetryStrategy(wait=3)` returns `4.0` at `attempts = 0`
and exactly `3.0` for every `attempts ≥ 1`. -/
theorem c5_wait3_schedule :
    ({ wait := 3 } : RetryStrategy).get_schedule_in 0 = some 4 ∧
    ∀ attempts : ℕ, 1 ≤ attempts →
      ({ wait := 3 } : RetryStrategy).get_schedule_in attempts = some 3 := by
  constructor
  · norm_num [RetryStrategy.get_schedule_in, optIntTruthy]
  · intro attempts h
    have hz : (0 : ℚ) ^ attempts = 0 := zero_pow (by omega)
    norm_num [RetryStrategy.get_schedule_in, optIntTruthy, hz]

/-- C5 witness: the amended theorem evaluated at `attempts = 4`. -/
theorem c5_wait3_schedule_witness :
    ({ wait := 3 } : RetryStrategy).get_schedule_in 4 = some 3 :=
  c5_wait3_schedule.2 4 (by decide)

/-- C6: for any strategy (given by its `get_schedule_in` method) and any
current time, `get_retry_exception` returns `none` exactly when
`get_schedule_in` returns `none`, and otherwise returns a `JobRetry` whose
timestamp is the current time plus the returned delay. -/
theorem c6_retry_exception_spec (schedule : ℕ → Option ℚ) (now : ℚ) (attempts : ℕ) :
    (get_retry_exception schedule now attempts = none ↔ schedule attempts = none) ∧
    (∀ d : ℚ, schedule attempts = some d →
      get_retry_exception schedule now attempts = some ⟨now + d⟩) := by
  constructor
  · unfold get_retry_exception
    rcases schedule attempts with _ | d <;> simp
  · intro d hd
    unfold get_retry_exception
    rw [hd]

/-- C6 witness: with a schedule returning a `2`-second delay and current time
`10`, the retry exception carries the timestamp `12`. -/
theorem c6_retry_exception_spec_witness :
    get_retry_exception (fun _ => some 2) 10 0 = some ⟨12⟩ := by
  have h := (c6_retry_exception_spec (fun _ => some 2) 10 0).2 2 rfl
  rw [h]
  norm_num

/-- C8: `get_schedule_in` is a deterministic function of the strategy's
fields and `attempts`: two strategies with equal fields give equal results at
equal attempt counts (and, being a pure function of an immutable value, the
call cannot alter any field). -/
theorem c8_schedule_deterministic (s₁ s₂ : RetryStrategy) (attempts : ℕ)
    (h₁ : s₁.max_attempts = s₂.max_attempts) (h₂ : s₁.wait = s₂.wait)
    (h₃ : s₁.linear_wait = s₂.linear_wait)
    (h₄ : s₁.exponential_wait = s₂.exponential_wait) :
    s₁.get_schedule_in attempts = s₂.get_schedule_in attempts := by
  cases s₁
  cases s₂
  simp only at h₁ h₂ h₃ h₄
  subst h₁ h₂ h₃ h₄
  rfl

/-- C8 witness: two separately constructed strategies with equal fields agree
at `attempts = 1`. -/
theorem c8_schedule_deterministic_witness :
    ({ wait := 3, linear_wait := 1 } : RetryStrategy).get_schedule_in 1 =
    ({ wait := 3, linear_wait := 1 } : RetryStrategy).get_schedule_in 1 :=
  c8_schedule_deterministic { wait := 3, linear_wait := 1 }
    { wait := 3, linear_wait := 1 } 1 rfl rfl rfl rfl

/-- C9: a strategy with `max_attempts = 0` behaves as if no limit were set,
because the guard tests Python truthiness of the field: `get_schedule_in`
returns the usual delay (never `none`) for every `attempts`. -/
theorem c9_max_attempts_zero_unlimited (s : RetryStrategy)
    (h : s.max_attempts = some 0) (attempts : ℕ) :
    s.get_schedule_in attempts =
      some (s.wait + s.linear_wait * (attempts : ℚ) + s.exponential_wait ^ attempts) := by
  simp [RetryStrategy.get_schedule_in, h, optIntTruthy]

/-- C9 witness: `max_attempts = 0` with `wait = 5` still schedules at a large
attempt count (`attempts = 100`). -/
theorem c9_max_attempts_zero_unlimited_witness :
    ({ max_attempts := some 0, wait := 5 } : RetryStrategy).get_schedule_in 100 =
      some (5 + 0 * (100 : ℚ) + 0 ^ (100 : ℕ)) :=
  c9_max_attempts_zero_unlimited { max_attempts := some 0, wait := 5 } rfl 100

/-- C10: for every negative integer `n`, `get_retry_strategy` returns a
strategy with `max_attempts = n` (a negative int is truthy), and that
strategy never schedules any retry: `get_schedule_in` is `none` at every
`attempts`. -/
theorem c10_negative_retry_never_schedules (n : ℤ) (hn : n < 0) :
    get_retry_strategy (.int n) = some { max_attempts := some n } ∧
    ∀ attempts : ℕ,
      ({ max_attempts := some n } : RetryStrategy).get_schedule_in attempts = none := by
  constructor
  · simp [get_retry_strategy, RetryValue.truthy]
    omega
  · intro attempts
    simp [RetryStrategy.get_schedule_in, optIntTruthy]
    constructor
    · omega
    · exact le_trans (le_of_lt hn) (by positivity)

/-- C10 witness: `get_retry_strategy (-1)` yields a strategy that refuses even
the first retry (`attempts = 0`). -/
theorem c10_negative_retry_never_schedules_witness :
    get_retry_strategy (.int (-1)) = some { max_attempts := some (-1) } ∧
    ({ max_attempts := some (-1) } : RetryStrategy).get_schedule_in 0 = none :=
  ⟨(c10_negative_retry_never_schedules (-1) (by decide)).1,
   (c10_negative_retry_never_schedules (-1) (by decide)).2 0⟩

end Procrastinate
